import Mathlib

/-!
# Verification of the emotion-detector fusion pipeline

Shallow embedding of `src/backend/app.py` (Flask service `analyze_emotions_final`
together with its helpers `generate_summary_with_groq` and
`generate_explanations_with_groq`).

Modelling conventions:
* Python floats are modelled as `ℚ` (exact arithmetic; every comparison the
  code performs is `>`/`==`, faithfully mirrored on `ℚ`).
* The two local classifiers are external collaborators: their outputs are
  parameters of the pipeline function, and a `CallLog` records how many times
  each collaborator would have been invoked on the executed control path.
* The Groq client is modelled by `GroqEnv`: `client` says whether
  `groq_client` is non-`None`; `summaryReply`/`explainReply` give, for each
  attempted chat-completion call, either the returned message content
  (`some s`) or `none` meaning the call raised an exception.
* Python exceptions that escape a function are modelled with `Except Unit`.
* Python `dict` is modelled as `String → Option String` built by successive
  updates (last write wins), exactly the Python assignment semantics.
-/

namespace EmotionDetector

/-- One `{'label': ..., 'score': ...}` entry as produced by the emotion
classifier (and reused for `emotions_data_for_llm`). -/
structure EmotionScore where
  label : String
  score : ℚ
deriving DecidableEq, Repr

/-- The raw output of `sentiment_classifier(user_text)[0]`. -/
structure SentimentRaw where
  label : String
  score : ℚ
deriving DecidableEq, Repr

/-- The `sentiment_data` dict of the endpoint. -/
structure SentimentData where
  label : String
  score : ℚ
deriving DecidableEq, Repr

/-- One entry of the endpoint's `final_emotions` list. -/
structure FinalEmotion where
  label : String
  score : ℚ
  explanation : String
  emoji : String
deriving DecidableEq, Repr

/-- The successful response body (`final_analysis`). -/
structure AnalysisResult where
  sentiment : SentimentData
  summary : String
  emotions : List FinalEmotion
deriving DecidableEq, Repr

/-- HTTP outcome of one request to `/analyze`. -/
inductive Response where
  | error (status : Nat) (msg : String)
  | ok (result : AnalysisResult)
deriving DecidableEq, Repr

/-- How many times each external collaborator was invoked while handling one
request: the emotion classifier, the sentiment classifier, and the remote
Groq chat-completion endpoint (attempted calls, whether or not they raised). -/
structure CallLog where
  emotionCalls : Nat
  sentimentCalls : Nat
  remoteCalls : Nat
deriving DecidableEq, Repr

/-- Environment describing the Groq collaborator: whether `groq_client` was
initialized, and the outcome of each attempted remote call (`none` = the call
raises an exception; `some s` = the call returns message content `s`).
Explanation calls are keyed by the emotion label they are issued for, the only
part of the per-emotion prompt that varies inside one request. -/
structure GroqEnv where
  client : Bool
  summaryReply : Option String
  explainReply : String → Option String

/-- Python `str` whitespace as used by `str.strip()` / `str.lower()` etc.
(ASCII portion, which is all the code relies on). -/
def pyWs (c : Char) : Bool :=
  c = ' ' || c = '\t' || c = '\n' || c = '\r' || c = '\x0b' || c = '\x0c'

/-- Python `s.strip()`. -/
def pyStrip (s : String) : String :=
  String.mk (((s.data.dropWhile pyWs).reverse.dropWhile pyWs).reverse)

/-- Python `s.capitalize()`: first character upper-cased, the rest lower-cased. -/
def pyCapitalize (s : String) : String :=
  match s.data with
  | [] => ""
  | c :: cs => String.mk (c.toUpper :: cs.map Char.toLower)

/-- Python `s.lower()`. -/
def pyLower (s : String) : String :=
  String.mk (s.data.map Char.toLower)

/-- The glyph the source uses both for `EMOJI_MAP['neutral']` and as the
`.get` default (bytes `EF A3 BF C3 BC C3 B2 C3 AA` of `app.py`, i.e. the
character sequence U+F8FF U+00FC U+00F2 U+00EA). -/
def neutralGlyph : String := "üòê"

/-- The module-level `EMOJI_MAP` dict, in source order.  The glyph strings are
the exact character sequences stored in `app.py`. -/
def EMOJI_MAP : List (String × String) :=
  [("admiration", "ü§©"),
   ("amusement", "üòÇ"),
   ("anger", "üò°"),
   ("annoyance", "üòí"),
   ("approval", "üëç"),
   ("caring", "ü§ó"),
   ("confusion", "ü§î"),
   ("curiosity", "üßê"),
   ("desire", "üòç"),
   ("disappointment", "üòû"),
   ("disapproval", "üëé"),
   ("disgust", "ü§¢"),
   ("embarrassment", "üò≥"),
   ("excitement", "üéâ"),
   ("fear", "üò®"),
   ("gratitude", "üôè"),
   ("grief", "üò≠"),
   ("joy", "üòÑ"),
   ("love", "‚ù§Ô∏è"),
   ("nervousness", "üò¨"),
   ("optimism", "üòä"),
   ("pride", "üòå"),
   ("realization", "üí°"),
   ("relief", "üòÆ‚Äçüí®"),
   ("remorse", "üòî"),
   ("sadness", "üò¢"),
   ("surprise", "üò≤"),
   ("neutral", neutralGlyph)]

/-- Empty Python dict (as a lookup function). -/
def emptyDict : String → Option String := fun _ => none

/-- Python `d[k] = v` on a dict modelled as a lookup function. -/
def dictInsert (d : String → Option String) (k v : String) :
    String → Option String :=
  fun x => if x = k then some v else d x

/-- Stable insertion of one element into a list already sorted in descending
`score` order: an element is moved past exactly those elements whose score is
strictly larger, so equal scores keep their original relative order — the
behaviour of Python's stable `list.sort(key=..., reverse=True)`. -/
def insertDesc (e : EmotionScore) : List EmotionScore → List EmotionScore
  | [] => [e]
  | x :: xs => if e.score < x.score then x :: insertDesc e xs else e :: x :: xs

/-- `emotion_results.sort(key=lambda x: x['score'], reverse=True)`:
stable sort, descending by score. -/
def sortDesc : List EmotionScore → List EmotionScore
  | [] => []
  | x :: xs => insertDesc x (sortDesc xs)

/-- `user_text = data.get('text', '').strip()` — the request's `text` field
(`none` when the key is absent) trimmed of surrounding whitespace. -/
def userTextOf (textOpt : Option String) : String :=
  pyStrip (textOpt.getD "")

/-- Lines 103–106: sort the classifier output descending by score and keep the
top 4 (`top_emotions_raw`). -/
def topEmotions (emotionResults : List EmotionScore) : List EmotionScore :=
  (sortDesc emotionResults).take 4

/-- Lines 108–113: capitalize the sentiment label and negate the confidence
when the capitalized label is `"Negative"` (`sentiment_data`). -/
def sentimentData (raw : SentimentRaw) : SentimentData :=
  let lab := pyCapitalize raw.label
  ⟨lab, if lab = "Negative" then -raw.score else raw.score⟩

/-- The content an explanation entry receives for label `l`: the stripped
reply of a successful remote call, or the deterministic template
`"The overall tone of the text suggests <label>."` when the call raises
(lines 85–89 of `generate_explanations_with_groq`). -/
def expectedExpl (env : GroqEnv) (l : String) : String :=
  match env.explainReply l with
  | some s => pyStrip s
  | none => "The overall tone of the text suggests " ++ l ++ "."

/-- `generate_summary_with_groq(text, sentiment, emotions)` (lines 43–66).
Returns the summary (or `Except.error` when the Python function would raise —
which happens exactly when the fallback f-string evaluates `emotions[0]` on an
empty list) together with the number of remote calls attempted. -/
def generate_summary_with_groq (sentiment : SentimentData)
    (emotions : List EmotionScore) (env : GroqEnv) :
    Except Unit String × Nat :=
  if env.client = false then
    match emotions with
    | [] => (Except.error (), 0)
    | e :: _ =>
      (Except.ok ("You seem to feel mostly " ++ e.label ++
        " and the overall mood is " ++ pyLower sentiment.label ++ "."), 0)
  else
    match env.summaryReply with
    | some s => (Except.ok (pyStrip s), 1)
    | none =>
      match emotions with
      | [] => (Except.error (), 1)
      | e :: _ =>
        (Except.ok ("You seem to feel mostly " ++ e.label ++
          " and the overall mood is " ++ pyLower sentiment.label ++ "."), 1)

/-- `generate_explanations_with_groq(text, emotions)` (lines 68–91).
Returns the explanations dict together with the number of remote calls
attempted.  Without a client, every label maps to the fixed local string
(line 71); with a client, each emotion gets `expectedExpl` from its own,
independently fault-tolerant remote call. -/
def generate_explanations_with_groq (emotions : List EmotionScore)
    (env : GroqEnv) : (String → Option String) × Nat :=
  if env.client = false then
    (emotions.foldl
      (fun d e => dictInsert d e.label
        "This emotion is detected based on your words.") emptyDict, 0)
  else
    (emotions.foldl
      (fun d e => dictInsert d e.label (expectedExpl env e.label)) emptyDict,
     emotions.length)

/-- Lines 122–137: normalization of the retained candidates' scores into
`final_emotions`.  When the retained sum is strictly positive each candidate's
score is divided by it; otherwise the single synthesized `"neutral"` entry is
emitted. -/
def finalEmotionsOf (top_emotions_raw : List EmotionScore)
    (explanations : String → Option String) : List FinalEmotion :=
  let total := (top_emotions_raw.map EmotionScore.score).sum
  if 0 < total then
    top_emotions_raw.map (fun e =>
      ⟨e.label, e.score / total,
       (explanations e.label).getD
         "This emotion is detected based on your words.",
       (EMOJI_MAP.lookup e.label).getD neutralGlyph⟩)
  else
    [⟨"neutral", 1, "No significant emotion was detected.", neutralGlyph⟩]

/-- The `/analyze` endpoint `analyze_emotions_final` (lines 94–150), given the
request's `text` field, the outputs the two local classifiers would produce
for it, and the Groq environment.  Returns the HTTP outcome and the log of
collaborator invocations. -/
def analyze (textOpt : Option String) (emotionResults : List EmotionScore)
    (sentimentRaw : SentimentRaw) (env : GroqEnv) : Response × CallLog :=
  let user_text := userTextOf textOpt
  if user_text = "" then
    (Response.error 400 "No text provided.", ⟨0, 0, 0⟩)
  else
    let top_emotions_raw := topEmotions emotionResults
    let sentiment_data := sentimentData sentimentRaw
    let emotions_data_for_llm :=
      top_emotions_raw.map (fun e => EmotionScore.mk e.label e.score)
    let summaryRes :=
      generate_summary_with_groq sentiment_data emotions_data_for_llm env
    match summaryRes.1 with
    | Except.error _ =>
      (Response.error 500 "An internal error occurred during analysis.",
       ⟨1, 1, summaryRes.2⟩)
    | Except.ok summary =>
      let explRes := generate_explanations_with_groq emotions_data_for_llm env
      (Response.ok
        ⟨sentiment_data, summary,
         finalEmotionsOf top_emotions_raw explRes.1⟩,
       ⟨1, 1, summaryRes.2 + explRes.2⟩)

end EmotionDetector

namespace EmotionDetector

/-- The relation "descending by score". -/
def scoreGE (a b : EmotionScore) : Prop := b.score ≤ a.score

lemma mem_insertDesc {x e : EmotionScore} {l : List EmotionScore}
    (h : x ∈ insertDesc e l) : x = e ∨ x ∈ l := by
  induction l with
  | nil => simpa [insertDesc] using h
  | cons y ys ih =>
    by_cases hc : e.score < y.score
    · rw [insertDesc, if_pos hc] at h
      rcases List.mem_cons.mp h with rfl | h
      · exact Or.inr (List.mem_cons_self _ _)
      · rcases ih h with h | h
        · exact Or.inl h
        · exact Or.inr (List.mem_cons_of_mem _ h)
    · rw [insertDesc, if_neg hc] at h
      rcases List.mem_cons.mp h with h | h
      · exact Or.inl h
      · exact Or.inr h

lemma pairwise_insertDesc (e : EmotionScore) {l : List EmotionScore}
    (h : l.Pairwise scoreGE) : (insertDesc e l).Pairwise scoreGE := by
  induction l with
  | nil => simp [insertDesc, List.pairwise_singleton]
  | cons y ys ih =>
    rcases List.pairwise_cons.mp h with ⟨hy, hys⟩
    by_cases hc : e.score < y.score
    · rw [insertDesc, if_pos hc]
      refine List.pairwise_cons.mpr ⟨?_, ih hys⟩
      intro z hz
      rcases mem_insertDesc hz with rfl | hz
      · exact le_of_lt hc
      · exact hy z hz
    · rw [insertDesc, if_neg hc]
      refine List.pairwise_cons.mpr ⟨?_, h⟩
      intro z hz
      rcases List.mem_cons.mp hz with rfl | hz
      · exact not_lt.mp hc
      · exact le_trans (hy z hz) (not_lt.mp hc)

lemma pairwise_sortDesc (l : List EmotionScore) :
    (sortDesc l).Pairwise scoreGE := by
  induction l with
  | nil => simp [sortDesc]
  | cons x xs ih => exact pairwise_insertDesc x ih

lemma length_insertDesc (e : EmotionScore) (l : List EmotionScore) :
    (insertDesc e l).length = l.length + 1 := by
  induction l with
  | nil => rfl
  | cons y ys ih =>
    by_cases hc : e.score < y.score
    · rw [insertDesc, if_pos hc]; simp [ih]
    · rw [insertDesc, if_neg hc]; simp

lemma length_sortDesc (l : List EmotionScore) :
    (sortDesc l).length = l.length := by
  induction l with
  | nil => rfl
  | cons x xs ih => rw [sortDesc, length_insertDesc, ih, List.length_cons]

lemma pairwise_topEmotions (l : List EmotionScore) :
    (topEmotions l).Pairwise scoreGE :=
  List.Pairwise.sublist (List.take_sublist 4 (sortDesc l)) (pairwise_sortDesc l)

lemma topEmotions_length_le (l : List EmotionScore) :
    (topEmotions l).length ≤ 4 := by
  simp [topEmotions, List.length_take]

lemma topEmotions_ne_nil {l : List EmotionScore} (h : l ≠ []) :
    topEmotions l ≠ [] := by
  intro hnil
  have hlen := congrArg List.length hnil
  simp [topEmotions, List.length_take, length_sortDesc] at hlen
  exact h hlen

lemma map_mk_id (l : List EmotionScore) :
    l.map (fun e => EmotionScore.mk e.label e.score) = l := by
  induction l with
  | nil => rfl
  | cons x xs ih => simp [ih]

lemma sum_map_div (l : List EmotionScore) (t : ℚ) :
    (l.map (fun e => e.score / t)).sum = (l.map EmotionScore.score).sum / t := by
  induction l with
  | nil => simp
  | cons x xs ih => simp [ih, add_div]

end EmotionDetector

namespace EmotionDetector

/-- The single entry synthesized when no emotion score survives (line 137). -/
def neutralFinal : FinalEmotion :=
  ⟨"neutral", 1, "No significant emotion was detected.", neutralGlyph⟩

lemma finalEmotionsOf_of_pos {top : List EmotionScore}
    (explanations : String → Option String)
    (h : 0 < (top.map EmotionScore.score).sum) :
    finalEmotionsOf top explanations =
      top.map (fun e =>
        ⟨e.label, e.score / (top.map EmotionScore.score).sum,
         (explanations e.label).getD
           "This emotion is detected based on your words.",
         (EMOJI_MAP.lookup e.label).getD neutralGlyph⟩) := by
  rw [finalEmotionsOf, if_pos h]

lemma finalEmotionsOf_of_not_pos {top : List EmotionScore}
    (explanations : String → Option String)
    (h : ¬ 0 < (top.map EmotionScore.score).sum) :
    finalEmotionsOf top explanations = [neutralFinal] := by
  rw [finalEmotionsOf, if_neg h]; rfl

lemma sum_pos_ne_nil {top : List EmotionScore}
    (h : 0 < (top.map EmotionScore.score).sum) : top ≠ [] := by
  intro hnil; rw [hnil] at h; simp at h

lemma finalEmotionsOf_sum (top : List EmotionScore)
    (explanations : String → Option String) :
    ((finalEmotionsOf top explanations).map FinalEmotion.score).sum = 1 := by
  by_cases h : 0 < (top.map EmotionScore.score).sum
  · rw [finalEmotionsOf_of_pos explanations h, List.map_map]
    have : (FinalEmotion.score ∘ fun (e : EmotionScore) =>
        (⟨e.label, e.score / (top.map EmotionScore.score).sum,
          (explanations e.label).getD
            "This emotion is detected based on your words.",
          (EMOJI_MAP.lookup e.label).getD neutralGlyph⟩ : FinalEmotion))
        = fun (e : EmotionScore) => e.score / (top.map EmotionScore.score).sum := rfl
    rw [this, sum_map_div, div_self (ne_of_gt h)]
  · rw [finalEmotionsOf_of_not_pos explanations h]
    simp [neutralFinal]

lemma finalEmotionsOf_ne_nil (top : List EmotionScore)
    (explanations : String → Option String) :
    finalEmotionsOf top explanations ≠ [] := by
  by_cases h : 0 < (top.map EmotionScore.score).sum
  · rw [finalEmotionsOf_of_pos explanations h]
    simpa using sum_pos_ne_nil h
  · rw [finalEmotionsOf_of_not_pos explanations h]
    simp

lemma finalEmotionsOf_length_le (top : List EmotionScore)
    (explanations : String → Option String) (h : top.length ≤ 4) :
    (finalEmotionsOf top explanations).length ≤ 4 := by
  by_cases hp : 0 < (top.map EmotionScore.score).sum
  · rw [finalEmotionsOf_of_pos explanations hp]; simpa using h
  · rw [finalEmotionsOf_of_not_pos explanations hp]; simp

lemma finalEmotionsOf_pairwise {top : List EmotionScore}
    (explanations : String → Option String) (h : top.Pairwise scoreGE) :
    (finalEmotionsOf top explanations).Pairwise
      (fun a b => b.score ≤ a.score) := by
  by_cases hp : 0 < (top.map EmotionScore.score).sum
  · rw [finalEmotionsOf_of_pos explanations hp, List.pairwise_map]
    refine h.imp ?_
    intro a b hab
    exact (div_le_div_iff_of_pos_right hp).mpr hab
  · rw [finalEmotionsOf_of_not_pos explanations hp]
    simp

lemma finalEmotionsOf_labels (top : List EmotionScore)
    (explanations : String → Option String) :
    ∀ fe ∈ finalEmotionsOf top explanations,
      fe.label = "neutral" ∨ fe.label ∈ top.map EmotionScore.label := by
  intro fe hfe
  by_cases hp : 0 < (top.map EmotionScore.score).sum
  · rw [finalEmotionsOf_of_pos explanations hp] at hfe
    rcases List.mem_map.mp hfe with ⟨e, he, rfl⟩
    exact Or.inr (List.mem_map.mpr ⟨e, he, rfl⟩)
  · rw [finalEmotionsOf_of_not_pos explanations hp] at hfe
    simp at hfe
    subst hfe
    exact Or.inl rfl

lemma foldl_dictInsert_lookup (w : String → String)
    (es : List EmotionScore) (d : String → Option String) (k : String) :
    (es.foldl (fun d e => dictInsert d e.label (w e.label)) d) k
      = if k ∈ es.map EmotionScore.label then some (w k) else d k := by
  induction es generalizing d with
  | nil => simp
  | cons e es ih =>
    rw [List.foldl_cons, ih]
    by_cases h1 : k ∈ es.map EmotionScore.label
    · simp [h1]
    · by_cases h2 : k = e.label
      · subst h2; simp [h1, dictInsert]
      · simp [h1, h2, dictInsert]

lemma generate_explanations_fst_true (emotions : List EmotionScore)
    {env : GroqEnv} (hc : env.client = true) :
    (generate_explanations_with_groq emotions env).1 =
      emotions.foldl
        (fun d e => dictInsert d e.label (expectedExpl env e.label)) emptyDict := by
  rw [generate_explanations_with_groq, if_neg (by simp [hc])]

lemma generate_explanations_fst_false (emotions : List EmotionScore)
    {env : GroqEnv} (hc : env.client = false) :
    (generate_explanations_with_groq emotions env).1 =
      emotions.foldl
        (fun d e => dictInsert d e.label
          "This emotion is detected based on your words.") emptyDict := by
  rw [generate_explanations_with_groq, if_pos hc]

lemma generate_explanations_lookup (emotions : List EmotionScore)
    (env : GroqEnv) (l : String)
    (hl : l ∈ emotions.map EmotionScore.label) :
    (generate_explanations_with_groq emotions env).1 l =
      some (if env.client then expectedExpl env l
            else "This emotion is detected based on your words.") := by
  by_cases hc : env.client
  · rw [generate_explanations_fst_true emotions hc,
        foldl_dictInsert_lookup (fun l => expectedExpl env l) emotions emptyDict l]
    simp [hl, hc]
  · rw [generate_explanations_fst_false emotions (by simpa using hc),
        foldl_dictInsert_lookup
          (fun _ => "This emotion is detected based on your words.")
          emotions emptyDict l]
    simp [hl, hc]

lemma generate_summary_congr (s : SentimentData) (emotions : List EmotionScore)
    {env env' : GroqEnv} (hc : env.client = env'.client)
    (hs : env.summaryReply = env'.summaryReply) :
    generate_summary_with_groq s emotions env =
      generate_summary_with_groq s emotions env' := by
  rw [generate_summary_with_groq.eq_def, generate_summary_with_groq.eq_def, hc, hs]

lemma generate_summary_fallback (s : SentimentData) (e : EmotionScore)
    (rest : List EmotionScore) {env : GroqEnv}
    (hfail : env.client = false ∨ env.summaryReply = none) :
    (generate_summary_with_groq s (e :: rest) env).1 =
      Except.ok ("You seem to feel mostly " ++ e.label ++
        " and the overall mood is " ++ pyLower s.label ++ ".") := by
  rcases hfail with hc | hs
  · rw [generate_summary_with_groq, if_pos hc]
  · by_cases hc : env.client = false
    · rw [generate_summary_with_groq, if_pos hc]
    · rw [generate_summary_with_groq, if_neg hc, hs]

lemma analyze_ok_cases {t : Option String} {es : List EmotionScore}
    {s : SentimentRaw} {env : GroqEnv} {r : AnalysisResult} {log : CallLog}
    (h : analyze t es s env = (Response.ok r, log)) :
    userTextOf t ≠ "" ∧
    r.sentiment = sentimentData s ∧
    Except.ok r.summary =
      (generate_summary_with_groq (sentimentData s) (topEmotions es) env).1 ∧
    r.emotions = finalEmotionsOf (topEmotions es)
      (generate_explanations_with_groq (topEmotions es) env).1 := by
  rw [analyze] at h
  simp only [map_mk_id] at h
  by_cases ht : userTextOf t = ""
  · rw [if_pos ht] at h
    exact absurd (congrArg Prod.fst h) (by simp)
  · rw [if_neg ht] at h
    refine ⟨ht, ?_⟩
    split at h
    · exact absurd (congrArg Prod.fst h) (by simp)
    · next summary heq =>
      have h1 := congrArg Prod.fst h
      simp only [Response.ok.injEq] at h1
      rw [← h1]
      exact ⟨rfl, heq ▸ rfl, rfl⟩

end EmotionDetector

namespace EmotionDetector

lemma analyze_ok_intro {t : Option String} {es : List EmotionScore}
    {s : SentimentRaw} {env : GroqEnv} {summary : String}
    (ht : userTextOf t ≠ "")
    (hsum : (generate_summary_with_groq (sentimentData s) (topEmotions es) env).1 =
      Except.ok summary) :
    analyze t es s env =
      (Response.ok ⟨sentimentData s, summary,
        finalEmotionsOf (topEmotions es)
          (generate_explanations_with_groq (topEmotions es) env).1⟩,
       ⟨1, 1,
        (generate_summary_with_groq (sentimentData s) (topEmotions es) env).2 +
          (generate_explanations_with_groq (topEmotions es) env).2⟩) := by
  simp only [analyze, map_mk_id]
  rw [if_neg ht, hsum]

lemma fallback_summary_ne_empty (a b : String) :
    "You seem to feel mostly " ++ a ++ " and the overall mood is " ++ b ++ "."
      ≠ "" := by
  intro h
  have hlen := congrArg String.length h
  rw [String.length_append, String.length_append, String.length_append,
      String.length_append] at hlen
  have h1 : ("You seem to feel mostly ").length = 24 := rfl
  have h2 : (" and the overall mood is ").length = 25 := rfl
  have h3 : (".").length = 1 := rfl
  have h4 : ("" : String).length = 0 := rfl
  omega

end EmotionDetector

namespace EmotionDetector

/-- A Groq environment in which `groq_client` is `None` (missing credential). -/
def envNoGroq : GroqEnv := ⟨false, none, fun _ => none⟩

/-- Sample request text. -/
def sampleText : Option String := some " I am happy "

/-- Sample emotion-classifier output (unsorted, as delivered). -/
def sampleEmotions : List EmotionScore :=
  [⟨"neutral", 1/100⟩, ⟨"joy", 7/10⟩, ⟨"optimism", 5/100⟩,
   ⟨"love", 2/10⟩, ⟨"gratitude", 3/100⟩]

/-- Sample sentiment-classifier output. -/
def sampleSentiment : SentimentRaw := ⟨"POSITIVE", 9998/10000⟩

/-- The response body `analyze` produces on the sample inputs without a Groq
client. -/
def sampleResult : AnalysisResult :=
  ⟨⟨"Positive", 4999/5000⟩,
   "You seem to feel mostly joy and the overall mood is positive.",
   [⟨"joy", 5/7, "This emotion is detected based on your words.",
     (EMOJI_MAP.lookup "joy").getD neutralGlyph⟩,
    ⟨"love", 10/49, "This emotion is detected based on your words.",
     (EMOJI_MAP.lookup "love").getD neutralGlyph⟩,
    ⟨"optimism", 5/98, "This emotion is detected based on your words.",
     (EMOJI_MAP.lookup "optimism").getD neutralGlyph⟩,
    ⟨"gratitude", 3/98, "This emotion is detected based on your words.",
     (EMOJI_MAP.lookup "gratitude").getD neutralGlyph⟩]⟩

lemma sampleRun_eq : analyze sampleText sampleEmotions sampleSentiment envNoGroq =
    (Response.ok sampleResult, ⟨1, 1, 0⟩) := by
  have h1 : pyStrip " I am happy " = "I am happy" := by decide
  have h2 : pyCapitalize "POSITIVE" = "Positive" := by decide
  have h3 : pyLower "Positive" = "positive" := by decide
  norm_num [analyze, userTextOf, h1, h2, h3, topEmotions, sortDesc, insertDesc,
    sentimentData, generate_summary_with_groq, generate_explanations_with_groq,
    expectedExpl, dictInsert, emptyDict, finalEmotionsOf, sampleText,
    sampleEmotions, sampleSentiment, envNoGroq, sampleResult]
  simp

/-- Sample sentiment-classifier output with the negative label. -/
def negSentiment : SentimentRaw := ⟨"NEGATIVE", 4/5⟩

/-- The response body `analyze` produces on the sample inputs with a negative
sentiment and no Groq client. -/
def negResult : AnalysisResult :=
  ⟨⟨"Negative", -(4/5)⟩,
   "You seem to feel mostly joy and the overall mood is negative.",
   sampleResult.emotions⟩

lemma negRun_eq : analyze sampleText sampleEmotions negSentiment envNoGroq =
    (Response.ok negResult, ⟨1, 1, 0⟩) := by
  have h1 : pyStrip " I am happy " = "I am happy" := by decide
  have h2 : pyCapitalize "NEGATIVE" = "Negative" := by decide
  have h3 : pyLower "Negative" = "negative" := by decide
  norm_num [analyze, userTextOf, h1, h2, h3, topEmotions, sortDesc, insertDesc,
    sentimentData, generate_summary_with_groq, generate_explanations_with_groq,
    expectedExpl, dictInsert, emptyDict, finalEmotionsOf, sampleText,
    sampleEmotions, negSentiment, envNoGroq, negResult, sampleResult]
  simp

end EmotionDetector

namespace EmotionDetector

/-- Classifier output whose only candidate has confidence 0. -/
def cexZeroCandidates : List EmotionScore := [⟨"joy", 0⟩]

/-- The response body produced on `cexZeroCandidates`: a single synthesized
neutral emotion, the zero-confidence candidate dropped. -/
def cexZeroResult : AnalysisResult :=
  ⟨⟨"Positive", 1/2⟩,
   "You seem to feel mostly joy and the overall mood is positive.",
   [⟨"neutral", 1, "No significant emotion was detected.", neutralGlyph⟩]⟩

lemma zeroRun_eq :
    analyze (some "x") cexZeroCandidates ⟨"POSITIVE", 1/2⟩ envNoGroq =
      (Response.ok cexZeroResult, ⟨1, 1, 0⟩) := by
  have h1 : pyStrip "x" = "x" := by decide
  have h2 : pyCapitalize "POSITIVE" = "Positive" := by decide
  have h3 : pyLower "Positive" = "positive" := by decide
  norm_num [analyze, userTextOf, h1, h2, h3, topEmotions, sortDesc, insertDesc,
    sentimentData, generate_summary_with_groq, generate_explanations_with_groq,
    expectedExpl, dictInsert, emptyDict, finalEmotionsOf, cexZeroCandidates,
    envNoGroq, cexZeroResult]
  simp

/-- A working Groq environment whose summary call returns a fixed string A. -/
def summaryEnvA : GroqEnv := ⟨true, some "LLM SUMMARY A", fun _ => none⟩

/-- A working Groq environment whose summary call returns a fixed string B. -/
def summaryEnvB : GroqEnv := ⟨true, some "LLM SUMMARY B", fun _ => none⟩

/-- Response on an empty candidate set under `summaryEnvA`. -/
def emptyResultA : AnalysisResult :=
  ⟨⟨"Positive", 1/2⟩, "LLM SUMMARY A",
   [⟨"neutral", 1, "No significant emotion was detected.", neutralGlyph⟩]⟩

/-- Response on an empty candidate set under `summaryEnvB`. -/
def emptyResultB : AnalysisResult :=
  ⟨⟨"Positive", 1/2⟩, "LLM SUMMARY B",
   [⟨"neutral", 1, "No significant emotion was detected.", neutralGlyph⟩]⟩

lemma emptyRunA_eq :
    analyze (some "x") [] ⟨"POSITIVE", 1/2⟩ summaryEnvA =
      (Response.ok emptyResultA, ⟨1, 1, 1⟩) := by
  have h1 : pyStrip "x" = "x" := by decide
  have h2 : pyCapitalize "POSITIVE" = "Positive" := by decide
  have h4 : pyStrip "LLM SUMMARY A" = "LLM SUMMARY A" := by decide
  norm_num [analyze, userTextOf, h1, h2, h4, topEmotions, sortDesc, insertDesc,
    sentimentData, generate_summary_with_groq, generate_explanations_with_groq,
    expectedExpl, dictInsert, emptyDict, finalEmotionsOf, summaryEnvA,
    emptyResultA]
  simp

lemma emptyRunB_eq :
    analyze (some "x") [] ⟨"POSITIVE", 1/2⟩ summaryEnvB =
      (Response.ok emptyResultB, ⟨1, 1, 1⟩) := by
  have h1 : pyStrip "x" = "x" := by decide
  have h2 : pyCapitalize "POSITIVE" = "Positive" := by decide
  have h4 : pyStrip "LLM SUMMARY B" = "LLM SUMMARY B" := by decide
  norm_num [analyze, userTextOf, h1, h2, h4, topEmotions, sortDesc, insertDesc,
    sentimentData, generate_summary_with_groq, generate_explanations_with_groq,
    expectedExpl, dictInsert, emptyDict, finalEmotionsOf, summaryEnvB,
    emptyResultB]
  simp

lemma emptyRunNoGroq_eq :
    analyze (some "x") [] ⟨"POSITIVE", 1/2⟩ envNoGroq =
      (Response.error 500 "An internal error occurred during analysis.",
       ⟨1, 1, 0⟩) := by
  have h1 : pyStrip "x" = "x" := by decide
  have h2 : pyCapitalize "POSITIVE" = "Positive" := by decide
  norm_num [analyze, userTextOf, h1, h2, topEmotions, sortDesc, insertDesc,
    sentimentData, generate_summary_with_groq, generate_explanations_with_groq,
    expectedExpl, dictInsert, emptyDict, finalEmotionsOf, envNoGroq]
  simp

/-- A working Groq environment that mentions a label of its own invention in
every reply. -/
def halEnv : GroqEnv :=
  ⟨true, some "the text is quarzy",
   fun l => some ("hallucinated-emotion " ++ l)⟩

/-- Response on the sample inputs under `halEnv`: the hallucinated replies end
up only inside explanation strings, never as labels. -/
def halResult : AnalysisResult :=
  ⟨⟨"Positive", 4999/5000⟩,
   "the text is quarzy",
   [⟨"joy", 5/7, "hallucinated-emotion joy",
     (EMOJI_MAP.lookup "joy").getD neutralGlyph⟩,
    ⟨"love", 10/49, "hallucinated-emotion love",
     (EMOJI_MAP.lookup "love").getD neutralGlyph⟩,
    ⟨"optimism", 5/98, "hallucinated-emotion optimism",
     (EMOJI_MAP.lookup "optimism").getD neutralGlyph⟩,
    ⟨"gratitude", 3/98, "hallucinated-emotion gratitude",
     (EMOJI_MAP.lookup "gratitude").getD neutralGlyph⟩]⟩

lemma halRun_eq : analyze sampleText sampleEmotions sampleSentiment halEnv =
    (Response.ok halResult, ⟨1, 1, 5⟩) := by
  have h1 : pyStrip " I am happy " = "I am happy" := by decide
  have h2 : pyCapitalize "POSITIVE" = "Positive" := by decide
  have h4 : pyStrip "the text is quarzy" = "the text is quarzy" := by decide
  have h5 : pyStrip "hallucinated-emotion joy" = "hallucinated-emotion joy" := by
    decide
  have h6 : pyStrip "hallucinated-emotion love" = "hallucinated-emotion love" := by
    decide
  have h7 : pyStrip "hallucinated-emotion optimism" =
      "hallucinated-emotion optimism" := by decide
  have h8 : pyStrip "hallucinated-emotion gratitude" =
      "hallucinated-emotion gratitude" := by decide
  norm_num [analyze, userTextOf, h1, h2, h4, h5, h6, h7, h8, topEmotions,
    sortDesc, insertDesc, sentimentData, generate_summary_with_groq,
    generate_explanations_with_groq, expectedExpl, dictInsert, emptyDict,
    finalEmotionsOf, sampleText, sampleEmotions, sampleSentiment, halEnv,
    halResult]
  simp [h5, h6, h7, h8]

end EmotionDetector

namespace EmotionDetector

/-- Claim C1: every request answered with HTTP 200 carries a non-empty
emotions list whose scores sum to exactly 1 (hence to 1.0 within the stated
tolerance 1e-6): when the top-4 raw-confidence sum is strictly positive each
retained emotion's score is its raw confidence divided by that sum, and
otherwise the single synthesized emotion carries score 1. -/
theorem scores_sum_to_one (t : Option String) (es : List EmotionScore)
    (s : SentimentRaw) (env : GroqEnv) (r : AnalysisResult) (log : CallLog)
    (h : analyze t es s env = (Response.ok r, log)) :
    r.emotions ≠ [] ∧
    (r.emotions.map FinalEmotion.score).sum = 1 ∧
    (0 < ((topEmotions es).map EmotionScore.score).sum →
      r.emotions.map FinalEmotion.score =
        (topEmotions es).map
          (fun e => e.score / ((topEmotions es).map EmotionScore.score).sum)) ∧
    (¬ 0 < ((topEmotions es).map EmotionScore.score).sum →
      r.emotions.map FinalEmotion.score = [1]) := by
  obtain ⟨-, -, -, hemo⟩ := analyze_ok_cases h
  refine ⟨?_, ?_, ?_, ?_⟩
  · rw [hemo]; exact finalEmotionsOf_ne_nil _ _
  · rw [hemo]; exact finalEmotionsOf_sum _ _
  · intro hp
    rw [hemo, finalEmotionsOf_of_pos _ hp, List.map_map]
    rfl
  · intro hp
    rw [hemo, finalEmotionsOf_of_not_pos _ hp]
    rfl

theorem scores_sum_to_one_witness :
    (sampleResult.emotions.map FinalEmotion.score).sum = 1 :=
  (scores_sum_to_one sampleText sampleEmotions sampleSentiment envNoGroq
    sampleResult ⟨1, 1, 0⟩ sampleRun_eq).2.1

/-- Claim C2 counterexample: on a non-empty retained set whose confidences sum
to zero (a single candidate "joy" with confidence 0) the code does not give
the candidate an equal 1/n share; it emits the synthesized "neutral" entry and
the candidate does not appear in the response at all. -/
theorem zero_sum_equal_share_cex :
    ((topEmotions cexZeroCandidates).map EmotionScore.score).sum = 0 ∧
    (topEmotions cexZeroCandidates).length = 1 ∧
    (analyze (some "x") cexZeroCandidates ⟨"POSITIVE", 1/2⟩ envNoGroq).1 =
      Response.ok cexZeroResult ∧
    cexZeroResult.emotions.map FinalEmotion.label = ["neutral"] ∧
    "joy" ∉ cexZeroResult.emotions.map FinalEmotion.label := by
  refine ⟨?_, ?_, ?_, ?_, ?_⟩
  · norm_num [topEmotions, sortDesc, insertDesc, cexZeroCandidates]
  · norm_num [topEmotions, sortDesc, insertDesc, cexZeroCandidates]
  · rw [zeroRun_eq]
  · rfl
  · simp [cexZeroResult]

/-- Claim C2 amended: when the retained candidates' confidences sum to zero
(the positive-sum branch is not taken), the response's emotions list is the
single synthesized "neutral" entry with score 1; the retained candidates are
dropped rather than given equal 1/n shares. -/
theorem zero_sum_neutral_fallback (t : Option String) (es : List EmotionScore)
    (s : SentimentRaw) (env : GroqEnv) (r : AnalysisResult) (log : CallLog)
    (h : analyze t es s env = (Response.ok r, log))
    (hz : ((topEmotions es).map EmotionScore.score).sum = 0) :
    r.emotions = [neutralFinal] ∧
    ∀ e ∈ topEmotions es, e.label ≠ "neutral" →
      e.label ∉ r.emotions.map FinalEmotion.label := by
  obtain ⟨-, -, -, hemo⟩ := analyze_ok_cases h
  have hnp : ¬ 0 < ((topEmotions es).map EmotionScore.score).sum := by
    rw [hz]; exact lt_irrefl 0
  rw [hemo, finalEmotionsOf_of_not_pos _ hnp]
  refine ⟨rfl, ?_⟩
  intro e he hne
  simp [neutralFinal, hne]

theorem zero_sum_neutral_fallback_witness :
    cexZeroResult.emotions = [neutralFinal] :=
  (zero_sum_neutral_fallback (some "x") cexZeroCandidates ⟨"POSITIVE", 1/2⟩
    envNoGroq cexZeroResult ⟨1, 1, 0⟩ zeroRun_eq
    (by norm_num [topEmotions, sortDesc, insertDesc, cexZeroCandidates])).1

/-- Claim C3 counterexample: with an empty retained candidate set, a
successful response does contain the single neutral emotion, but its summary
is not overwritten with any fixed neutral-tone message — it is exactly what
the refinement step returned, as two runs that differ only in the remote
reply show; and when the refinement service is absent as well, there is no
successful response at all: the request fails with HTTP 500. -/
theorem empty_retained_summary_cex :
    (analyze (some "x") [] ⟨"POSITIVE", 1/2⟩ summaryEnvA).1 =
      Response.ok emptyResultA ∧
    (analyze (some "x") [] ⟨"POSITIVE", 1/2⟩ summaryEnvB).1 =
      Response.ok emptyResultB ∧
    emptyResultA.emotions = [neutralFinal] ∧
    emptyResultB.emotions = [neutralFinal] ∧
    emptyResultA.summary = "LLM SUMMARY A" ∧
    emptyResultB.summary = "LLM SUMMARY B" ∧
    emptyResultA.summary ≠ emptyResultB.summary ∧
    (analyze (some "x") [] ⟨"POSITIVE", 1/2⟩ envNoGroq).1 =
      Response.error 500 "An internal error occurred during analysis." := by
  refine ⟨?_, ?_, rfl, rfl, rfl, rfl, ?_, ?_⟩
  · rw [emptyRunA_eq]
  · rw [emptyRunB_eq]
  · simp [emptyResultA, emptyResultB]
  · rw [emptyRunNoGroq_eq]

/-- Claim C3 amended: if the retained candidate set is empty, a successful
response contains exactly one emotion — label "neutral", score 1, the fixed
default explanation and the neutral emoji — but the summary field keeps
whatever the summary step produced (the remote reply or its fallback); it is
not overwritten with a fixed neutral-tone message.  (With an empty candidate
set and no working refinement service the request instead fails with 500,
since the summary fallback itself indexes the empty candidate list.) -/
theorem empty_retained_neutral_emotion (t : Option String)
    (es : List EmotionScore) (s : SentimentRaw) (env : GroqEnv)
    (r : AnalysisResult) (log : CallLog)
    (h : analyze t es s env = (Response.ok r, log))
    (he : topEmotions es = []) :
    r.emotions = [neutralFinal] ∧
    Except.ok r.summary =
      (generate_summary_with_groq (sentimentData s) [] env).1 := by
  obtain ⟨-, -, hsum, hemo⟩ := analyze_ok_cases h
  constructor
  · rw [hemo, he, finalEmotionsOf_of_not_pos]
    simp
  · rw [← he]
    exact hsum

theorem empty_retained_neutral_emotion_witness :
    emptyResultA.emotions = [neutralFinal] :=
  (empty_retained_neutral_emotion (some "x") [] ⟨"POSITIVE", 1/2⟩ summaryEnvA
    emptyResultA ⟨1, 1, 1⟩ emptyRunA_eq rfl).1

/-- Claim C4: a request whose text field is missing, empty, or whitespace-only
is rejected with HTTP 400 and body error "No text provided.", and neither
local classifier nor the remote refinement service is invoked. -/
theorem empty_text_rejected_no_calls (t : Option String)
    (es : List EmotionScore) (s : SentimentRaw) (env : GroqEnv)
    (h : userTextOf t = "") :
    analyze t es s env =
      (Response.error 400 "No text provided.", ⟨0, 0, 0⟩) := by
  simp [analyze, h]

theorem empty_text_rejected_no_calls_witness :
    analyze (some " \t ") [⟨"joy", 1⟩] ⟨"POSITIVE", 1/2⟩ envNoGroq =
      (Response.error 400 "No text provided.", ⟨0, 0, 0⟩) :=
  empty_text_rejected_no_calls _ _ _ _ (by decide)

end EmotionDetector

namespace EmotionDetector

/-- Claim C5: for a non-empty input text (and the local emotion classifier
returning its usual non-empty candidate list), failure of the remote
refinement service alone — no client, or every call raising — still yields an
HTTP 200 response whose summary is the deterministic non-empty fallback
sentence and whose emotions list is non-empty, every explanation being one of
the deterministic fallback strings. -/
theorem refinement_failure_degraded_ok (t : Option String)
    (es : List EmotionScore) (s : SentimentRaw) (env : GroqEnv)
    (ht : userTextOf t ≠ "") (hes : es ≠ [])
    (hfail : env.client = false ∨
      (env.summaryReply = none ∧ ∀ l, env.explainReply l = none)) :
    ∃ r log e rest, topEmotions es = e :: rest ∧
      analyze t es s env = (Response.ok r, log) ∧
      r.summary = "You seem to feel mostly " ++ e.label ++
        " and the overall mood is " ++ pyLower (pyCapitalize s.label) ++ "." ∧
      r.summary ≠ "" ∧ r.emotions ≠ [] ∧
      ∀ fe ∈ r.emotions,
        fe.explanation = "This emotion is detected based on your words." ∨
        fe.explanation =
          "The overall tone of the text suggests " ++ fe.label ++ "." ∨
        fe.explanation = "No significant emotion was detected." := by
  obtain ⟨e, rest, htop⟩ : ∃ e rest, topEmotions es = e :: rest := by
    cases hcase : topEmotions es with
    | nil => exact absurd hcase (topEmotions_ne_nil hes)
    | cons e rest => exact ⟨e, rest, rfl⟩
  have hfb : env.client = false ∨ env.summaryReply = none := hfail.imp id And.left
  have hsum1 : (generate_summary_with_groq (sentimentData s)
      (topEmotions es) env).1 =
      Except.ok ("You seem to feel mostly " ++ e.label ++
        " and the overall mood is " ++ pyLower (pyCapitalize s.label) ++ ".") := by
    rw [htop]
    exact generate_summary_fallback (sentimentData s) e rest hfb
  refine ⟨_, _, e, rest, htop, analyze_ok_intro ht hsum1, rfl,
    fallback_summary_ne_empty _ _, finalEmotionsOf_ne_nil _ _, ?_⟩
  intro fe hfe
  by_cases hp : 0 < ((topEmotions es).map EmotionScore.score).sum
  · rw [finalEmotionsOf_of_pos _ hp] at hfe
    obtain ⟨e2, he2, rfl⟩ := List.mem_map.mp hfe
    have hl : e2.label ∈ (topEmotions es).map EmotionScore.label :=
      List.mem_map.mpr ⟨e2, he2, rfl⟩
    by_cases hc : env.client = true
    · rcases hfail with hcf | ⟨-, hrep⟩
      · rw [hcf] at hc
        exact absurd hc (by simp)
      · right; left
        show ((generate_explanations_with_groq (topEmotions es) env).1
          e2.label).getD "This emotion is detected based on your words." = _
        rw [generate_explanations_lookup _ env _ hl]
        simp [hc, expectedExpl, hrep e2.label]
    · left
      have hcf : env.client = false := by
        revert hc; cases env.client <;> simp
      show ((generate_explanations_with_groq (topEmotions es) env).1
        e2.label).getD "This emotion is detected based on your words." = _
      rw [generate_explanations_lookup _ env _ hl]
      simp [hcf]
  · rw [finalEmotionsOf_of_not_pos _ hp] at hfe
    simp only [List.mem_singleton] at hfe
    subst hfe
    right; right
    rfl

theorem refinement_failure_degraded_ok_witness :
    ∃ r log e rest, topEmotions sampleEmotions = e :: rest ∧
      analyze sampleText sampleEmotions sampleSentiment envNoGroq =
        (Response.ok r, log) ∧
      r.summary = "You seem to feel mostly " ++ e.label ++
        " and the overall mood is " ++
        pyLower (pyCapitalize sampleSentiment.label) ++ "." ∧
      r.summary ≠ "" ∧ r.emotions ≠ [] ∧
      ∀ fe ∈ r.emotions,
        fe.explanation = "This emotion is detected based on your words." ∨
        fe.explanation =
          "The overall tone of the text suggests " ++ fe.label ++ "." ∨
        fe.explanation = "No significant emotion was detected." :=
  refinement_failure_degraded_ok sampleText sampleEmotions sampleSentiment
    envNoGroq (by decide) (by simp [sampleEmotions]) (Or.inl rfl)

/-- Claim C6: with a working client, each per-emotion explanation call is
independently fault-tolerant — when the call for one label raises, exactly
that label's explanation becomes the deterministic template sentence, while
the explanation of every other label and the result of the summary call are
unchanged between an environment where that one call fails and one where it
does not. -/
theorem explanation_isolation (sd : SentimentData)
    (emos : List EmotionScore) (env env2 : GroqEnv) (l0 : String)
    (hc : env.client = true) (hc2 : env2.client = true)
    (hs : env.summaryReply = env2.summaryReply)
    (hagree : ∀ l, l ≠ l0 → env.explainReply l = env2.explainReply l)
    (hfail : env.explainReply l0 = none)
    (hmem : l0 ∈ emos.map EmotionScore.label) :
    (generate_explanations_with_groq emos env).1 l0 =
      some ("The overall tone of the text suggests " ++ l0 ++ ".") ∧
    (∀ l, l ∈ emos.map EmotionScore.label → l ≠ l0 →
      (generate_explanations_with_groq emos env).1 l =
        (generate_explanations_with_groq emos env2).1 l) ∧
    generate_summary_with_groq sd emos env =
      generate_summary_with_groq sd emos env2 := by
  refine ⟨?_, ?_, generate_summary_congr sd emos (hc.trans hc2.symm) hs⟩
  · rw [generate_explanations_lookup emos env l0 hmem]
    simp [hc, expectedExpl, hfail]
  · intro l hl hne
    rw [generate_explanations_lookup emos env l hl,
        generate_explanations_lookup emos env2 l hl]
    simp [hc, hc2, expectedExpl, hagree l hne]

/-- Groq environment whose explanation call for "joy" raises and whose other
calls succeed. -/
def isoEnv : GroqEnv :=
  ⟨true, some "S", fun l => if l = "joy" then none else some ("about " ++ l)⟩

/-- Same as `isoEnv` except that the "joy" call succeeds. -/
def isoEnv2 : GroqEnv :=
  ⟨true, some "S",
   fun l => if l = "joy" then some "joy happened" else some ("about " ++ l)⟩

theorem explanation_isolation_witness :
    (generate_explanations_with_groq [⟨"joy", 1/2⟩, ⟨"fear", 1/4⟩] isoEnv).1
        "joy" =
      some ("The overall tone of the text suggests " ++ "joy" ++ ".") :=
  (explanation_isolation ⟨"Positive", 1⟩ [⟨"joy", 1/2⟩, ⟨"fear", 1/4⟩]
    isoEnv isoEnv2 "joy" rfl rfl rfl
    (fun l hl => by simp [isoEnv, isoEnv2, hl])
    (by simp [isoEnv])
    (by simp)).1

end EmotionDetector

namespace EmotionDetector

/-- Claim C7: in every successful response the emotions list is sorted in
descending score order — the candidates are sorted descending by raw
confidence before truncation, and in the positive-sum branch dividing by the
common positive sum preserves that order in the final scores. -/
theorem emotions_sorted_desc (t : Option String) (es : List EmotionScore)
    (s : SentimentRaw) (env : GroqEnv) (r : AnalysisResult) (log : CallLog)
    (h : analyze t es s env = (Response.ok r, log)) :
    (sortDesc es).Pairwise scoreGE ∧
    r.emotions.Pairwise (fun a b => b.score ≤ a.score) := by
  obtain ⟨-, -, -, hemo⟩ := analyze_ok_cases h
  refine ⟨pairwise_sortDesc es, ?_⟩
  rw [hemo]
  exact finalEmotionsOf_pairwise _ (pairwise_topEmotions es)

theorem emotions_sorted_desc_witness :
    sampleResult.emotions.Pairwise (fun a b => b.score ≤ a.score) :=
  (emotions_sorted_desc sampleText sampleEmotions sampleSentiment envNoGroq
    sampleResult ⟨1, 1, 0⟩ sampleRun_eq).2

/-- Claim C8: the sentiment of a successful response has the classifier label
capitalized for display, magnitude equal to the classifier's raw confidence,
and the score negated exactly when the capitalized label is "Negative"; for
the (always strictly positive) raw confidences the classifier emits, the
signed score is negative if and only if the label is "Negative". -/
theorem sentiment_sign_encoding (t : Option String) (es : List EmotionScore)
    (s : SentimentRaw) (env : GroqEnv) (r : AnalysisResult) (log : CallLog)
    (h : analyze t es s env = (Response.ok r, log)) (hpos : 0 < s.score) :
    r.sentiment.label = pyCapitalize s.label ∧
    |r.sentiment.score| = s.score ∧
    r.sentiment.score =
      (if pyCapitalize s.label = "Negative" then -s.score else s.score) ∧
    (r.sentiment.score < 0 ↔ r.sentiment.label = "Negative") := by
  obtain ⟨-, hsent, -, -⟩ := analyze_ok_cases h
  have hlab : (sentimentData s).label = pyCapitalize s.label := rfl
  have hsc : (sentimentData s).score =
      if pyCapitalize s.label = "Negative" then -s.score else s.score := rfl
  rw [hsent, hlab, hsc]
  by_cases hn : pyCapitalize s.label = "Negative"
  · rw [if_pos hn]
    refine ⟨rfl, ?_, rfl, ?_⟩
    · rw [abs_neg, abs_of_pos hpos]
    · exact iff_of_true (neg_lt_zero.mpr hpos) hn
  · rw [if_neg hn]
    exact ⟨rfl, abs_of_pos hpos, rfl,
      iff_of_false (not_lt.mpr (le_of_lt hpos)) hn⟩

theorem sentiment_sign_encoding_witness :
    negResult.sentiment.score < 0 ↔ negResult.sentiment.label = "Negative" :=
  (sentiment_sign_encoding sampleText sampleEmotions negSentiment envNoGroq
    negResult ⟨1, 1, 0⟩ negRun_eq (by norm_num [negSentiment])).2.2.2

/-- Claim C9: no label outside the retained top-4 candidate set ever appears
in a successful response's emotions list, whatever the remote refinement
replies contain: every final label is either one of the retained candidates'
labels or the synthesized "neutral". -/
theorem no_hallucinated_labels (t : Option String) (es : List EmotionScore)
    (s : SentimentRaw) (env : GroqEnv) (r : AnalysisResult) (log : CallLog)
    (h : analyze t es s env = (Response.ok r, log)) :
    ∀ fe ∈ r.emotions,
      fe.label = "neutral" ∨
      fe.label ∈ (topEmotions es).map EmotionScore.label := by
  obtain ⟨-, -, -, hemo⟩ := analyze_ok_cases h
  rw [hemo]
  exact finalEmotionsOf_labels _ _

theorem no_hallucinated_labels_witness :
    (⟨"joy", 5/7, "hallucinated-emotion joy",
      (EMOJI_MAP.lookup "joy").getD neutralGlyph⟩ : FinalEmotion).label
        = "neutral" ∨
    (⟨"joy", 5/7, "hallucinated-emotion joy",
      (EMOJI_MAP.lookup "joy").getD neutralGlyph⟩ : FinalEmotion).label
        ∈ (topEmotions sampleEmotions).map EmotionScore.label :=
  no_hallucinated_labels sampleText sampleEmotions sampleSentiment halEnv
    halResult ⟨1, 1, 5⟩ halRun_eq _ (by simp [halResult])

/-- Claim C10: every successful response carries between 1 and 4 emotions —
the candidate list is truncated to the top 4, and the neutral fallback keeps
the list non-empty when the positive-sum branch is not taken. -/
theorem emotions_length_bounds (t : Option String) (es : List EmotionScore)
    (s : SentimentRaw) (env : GroqEnv) (r : AnalysisResult) (log : CallLog)
    (h : analyze t es s env = (Response.ok r, log)) :
    1 ≤ r.emotions.length ∧ r.emotions.length ≤ 4 := by
  obtain ⟨-, -, -, hemo⟩ := analyze_ok_cases h
  rw [hemo]
  refine ⟨?_, finalEmotionsOf_length_le _ _ (topEmotions_length_le es)⟩
  exact List.length_pos.mpr (finalEmotionsOf_ne_nil _ _)

theorem emotions_length_bounds_witness :
    1 ≤ sampleResult.emotions.length ∧ sampleResult.emotions.length ≤ 4 :=
  emotions_length_bounds sampleText sampleEmotions sampleSentiment envNoGroq
    sampleResult ⟨1, 1, 0⟩ sampleRun_eq

end EmotionDetector
